import Mathlib

/-!
Shallow embedding of the DCF valuation core of `src/app.py` (QuTap):
the function `calculate_dcf` (lines 117-135) and the risk/reward
block (lines 225-244).  Python floats are modelled as exact rationals.
-/

namespace QuTap

/-- The for-loop of `calculate_dcf` (src/app.py lines 120-125): starting
from `current_fcf`, multiply by `(1 + growth_rate)` once per remaining
iteration, appending each new value.  `n` counts the remaining iterations. -/
def projectFCF (growth_rate : ℚ) : Nat → ℚ → List ℚ
  | 0, _ => []
  | Nat.succ n, current_fcf =>
      let next := current_fcf * (1 + growth_rate)
      next :: projectFCF growth_rate n next

/-- `future_fcf` after the loop `for i in range(1, 6)` of `calculate_dcf`:
five compounding steps starting from the base `fcf`. -/
def futureFCF (fcf growth_rate : ℚ) : List ℚ :=
  projectFCF growth_rate 5 fcf

/-- `terminal_value` of src/app.py line 127:
`(future_fcf[-1] * (1 + terminal_growth)) / (wacc - terminal_growth)`. -/
def terminal_value (fcf growth_rate wacc terminal_growth : ℚ) : ℚ :=
  ((futureFCF fcf growth_rate).getLastD 0) * (1 + terminal_growth) / (wacc - terminal_growth)

/-- `calculate_dcf` of src/app.py lines 117-135.  The guard
`if shares == 0: return 0` is kept exactly as written; there is no other
input validation in the source. -/
def calculate_dcf (fcf growth_rate wacc terminal_growth shares net_debt : ℚ) : ℚ :=
  if shares = 0 then 0
  else
    let future_fcf := futureFCF fcf growth_rate
    let tv := terminal_value fcf growth_rate wacc terminal_growth
    let discount_factors := (List.range 5).map (fun i => (1 + wacc) ^ (i + 1))
    let pv_fcf := ((future_fcf.zip discount_factors).map (fun p => p.1 / p.2)).sum
    let pv_terminal := tv / ((1 + wacc) ^ 5)
    let equity_value := (pv_fcf + pv_terminal) - net_debt
    equity_value / shares

/-- Opportunity labels chosen by the classification chain of
src/app.py lines 239-244 (`st.success` / `st.warning` / `st.error`). -/
inductive Rating where
  | strong
  | moderate
  | unattractive
deriving DecidableEq, Repr

/-- Outcome of the risk/reward block: the numeric `ratio` variable, whether
the `downside <= 0` sentinel branch was taken (the branch whose displayed
text is "Infinite (No modeled downside)"), and the label chosen from
the ratio. -/
structure RiskReward where
  ratioValue : ℚ
  noDownside : Bool
  rating : Rating
deriving DecidableEq, Repr

/-- The classification chain of src/app.py lines 239-244:
`if ratio > 3` strong, `elif ratio > 1.5` moderate, `else` unattractive. -/
def classify (r : ℚ) : Rating :=
  if r > 3 then Rating.strong
  else if r > 3/2 then Rating.moderate
  else Rating.unattractive

/-- The risk/reward block of src/app.py lines 225-244:
`upside = bull_p - safe_price`, `downside = safe_price - bear_p`;
if `downside <= 0` the ratio is set to the literal `100` on the sentinel
branch, otherwise `ratio = upside / downside`; the label is then chosen
from `ratio` by the classification chain. -/
def riskReward (bull_p bear_p safe_price : ℚ) : RiskReward :=
  let upside := bull_p - safe_price
  let downside := safe_price - bear_p
  if downside ≤ 0 then
    { ratioValue := 100, noDownside := true, rating := classify 100 }
  else
    let r := upside / downside
    { ratioValue := r, noDownside := false, rating := classify r }

/-- The loop value list in closed form: entry `t` (1-based) is
`fcf * (1+g)^t`. -/
lemma futureFCF_eq (fcf g : ℚ) :
    futureFCF fcf g =
      [fcf * (1+g), fcf * (1+g)^2, fcf * (1+g)^3, fcf * (1+g)^4, fcf * (1+g)^5] := by
  show projectFCF g 5 fcf = _
  simp only [projectFCF]
  norm_num
  ring_nf
  simp

/-- The source's `terminal_value` in closed form:
`fcf[5] * (1 + terminal_growth) / (wacc - terminal_growth)`. -/
lemma terminal_value_eq (fcf g w tg : ℚ) :
    terminal_value fcf g w tg = fcf * (1+g)^5 * (1+tg) / (w - tg) := by
  rw [terminal_value, futureFCF_eq]
  norm_num [List.getLastD]

/-- Unfolding of `calculate_dcf` on the non-zero-shares branch into the
five explicit present-value terms, the discounted terminal value, the
net-debt subtraction and the per-share division. -/
lemma calculate_dcf_eq (fcf g w tg s nd : ℚ) (hs : s ≠ 0) :
    calculate_dcf fcf g w tg s nd =
      (fcf * (1+g) / (1+w) + fcf * (1+g)^2 / (1+w)^2 + fcf * (1+g)^3 / (1+w)^3
        + fcf * (1+g)^4 / (1+w)^4 + fcf * (1+g)^5 / (1+w)^5
        + (fcf * (1+g)^5 * (1+tg) / (w - tg)) / (1+w)^5 - nd) / s := by
  rw [calculate_dcf, if_neg hs]
  simp only [terminal_value_eq, futureFCF_eq, List.range, List.range.loop,
    List.map, List.zip, List.zipWith, List.sum_cons, List.sum_nil]
  ring

/-- Claim C1 (code bug): for `shares_outstanding = 0` the source's
`calculate_dcf` returns the in-band number `0` for every choice of the
other inputs, instead of signalling an `InvalidShareCount` error as the
specification requires (src/app.py line 118: `if shares == 0: return 0`). -/
theorem calculate_dcf_zero_shares_returns_zero (fcf g w tg nd : ℚ) :
    calculate_dcf fcf g w tg 0 nd = 0 := by
  simp [calculate_dcf]

/-- Claim C2 (code bug): for `discount_rate < terminal_growth_rate`
(here 0.02 < 0.025) the source computes the perpetuity formula anyway and
returns the resulting large negative number as the per-share value; no
`DegenerateTerminalValue` error exists in the code. -/
theorem calculate_dcf_degenerate_returns_number :
    calculate_dcf 100 (1/10) (1/50) (1/40) 1 0 < 0 := by
  rw [calculate_dcf_eq 100 (1/10) (1/50) (1/40) 1 0 (by norm_num)]
  norm_num

/-- Claim C3: for `shares_outstanding > 0` and
`discount_rate > terminal_growth_rate`, `calculate_dcf` returns exactly
the claimed closed form: the sum over t = 1..5 (written `t+1` over
`Finset.range 5`) of `fcf*(1+g)^t/(1+w)^t`, plus the discounted Gordon
terminal value, minus net debt, divided by the share count.  In
particular the year-1 term is `fcf*(1+g)` and the base-year FCF never
appears undiscounted. -/
theorem calculate_dcf_closed_form (fcf g w tg s nd : ℚ)
    (hs : 0 < s) (_hw : tg < w) :
    calculate_dcf fcf g w tg s nd =
      ((∑ t ∈ Finset.range 5, fcf * (1+g)^(t+1) / (1+w)^(t+1))
        + (fcf * (1+g)^5 * (1+tg) / (w - tg)) / (1+w)^5 - nd) / s := by
  rw [calculate_dcf_eq fcf g w tg s nd (ne_of_gt hs)]
  simp [Finset.sum_range_succ]

/-- Witness for C3 at the golden scenario inputs. -/
theorem calculate_dcf_closed_form_app :
    calculate_dcf 100 (1/10) (1/10) (1/40) 1000 0 =
      ((∑ t ∈ Finset.range 5, 100 * (1+(1/10):ℚ)^(t+1) / (1+(1/10))^(t+1))
        + ((100:ℚ) * (1+(1/10))^5 * (1+(1/40)) / ((1/10) - (1/40))) / (1+(1/10))^5 - 0) / 1000 :=
  calculate_dcf_closed_form 100 (1/10) (1/10) (1/40) 1000 0 (by norm_num) (by norm_num)

/-- Claim C5 counterexample: in the golden scenario the year-5 FCF is
161.051 as claimed, but the terminal value produced by the formula
`161.051 * 1.025 / (0.10 - 0.025)` is 6603091/3000 = 2201.0303…, which
exceeds 2200.38, so it is not a number of the form 2200.37… as the claim
states. -/
theorem golden_terminal_not_2200_37 :
    (futureFCF 100 (1/10)).getLastD 0 = 161051/1000 ∧
    terminal_value 100 (1/10) (1/10) (1/40) = 6603091/3000 ∧
    ¬ (terminal_value 100 (1/10) (1/10) (1/40) < 2200 + 38/100) := by
  refine ⟨?_, ?_, ?_⟩
  · rw [futureFCF_eq]; norm_num [List.getLastD]
  · rw [terminal_value_eq]; norm_num
  · rw [terminal_value_eq]; norm_num

/-- Claim C5 (amended): golden scenario `base_fcf=100, growth=0.10,
wacc=0.10, terminal_growth=0.025, shares=1000, net_debt=0`: the year-5
projected FCF is exactly 161.051, the terminal value is exactly
6603091/3000 = 2201.0303…, and the per-share value is exactly
28/15 = 1.8666…, a fixed computable rational. -/
theorem golden_scenario_values :
    (futureFCF 100 (1/10)).getLastD 0 = 161051/1000 ∧
    terminal_value 100 (1/10) (1/10) (1/40) = 6603091/3000 ∧
    calculate_dcf 100 (1/10) (1/10) (1/40) 1000 0 = 28/15 := by
  refine ⟨?_, ?_, ?_⟩
  · rw [futureFCF_eq]; norm_num [List.getLastD]
  · rw [terminal_value_eq]; norm_num
  · rw [calculate_dcf_eq 100 (1/10) (1/10) (1/40) 1000 0 (by norm_num)]; norm_num

/-- Claim C8: with `growth_rate = 0` the five projected cash flows all
equal the base FCF. -/
theorem futureFCF_zero_growth_flat (fcf : ℚ) :
    futureFCF fcf 0 = List.replicate 5 fcf := by
  rw [futureFCF_eq]; norm_num [List.replicate]

/-- Claim C9: `calculate_dcf` is a pure function of its six arguments:
equal inputs give equal outputs (in this embedding it is a mathematical
function, with no state to mutate and no side effects). -/
theorem calculate_dcf_deterministic
    (fcf g w tg s nd fcf2 g2 w2 tg2 s2 nd2 : ℚ)
    (h1 : fcf = fcf2) (h2 : g = g2) (h3 : w = w2) (h4 : tg = tg2)
    (h5 : s = s2) (h6 : nd = nd2) :
    calculate_dcf fcf g w tg s nd = calculate_dcf fcf2 g2 w2 tg2 s2 nd2 := by
  rw [h1, h2, h3, h4, h5, h6]

/-- Witness for C9: two invocations with equal concrete inputs agree. -/
theorem calculate_dcf_deterministic_app :
    calculate_dcf 100 (1/10) (1/10) (1/40) 1000 0 =
      calculate_dcf 100 (1/10) (1/10) (1/40) 1000 0 :=
  calculate_dcf_deterministic 100 (1/10) (1/10) (1/40) 1000 0
    100 (1/10) (1/10) (1/40) 1000 0 rfl rfl rfl rfl rfl rfl

/-- Claim C4 counterexample: with a negative base FCF (allowed by the
spec: free cash flow "may be negative") and otherwise valid inputs
(shares = 1 > 0, wacc = 0.10 > terminal growth = 0.025), raising the
growth rate from 0 to 0.10 strictly lowers the per-share value, so the
value is not monotonically increasing in the growth rate. -/
theorem calculate_dcf_not_monotone_growth :
    calculate_dcf (-100) (1/10) (1/10) (1/40) 1 0 <
      calculate_dcf (-100) 0 (1/10) (1/40) 1 0 := by
  rw [calculate_dcf_eq (-100) (1/10) (1/10) (1/40) 1 0 (by norm_num),
      calculate_dcf_eq (-100) 0 (1/10) (1/40) 1 0 (by norm_num)]
  norm_num

/-- Claim C4 (amended): for valid inputs with a positive base FCF,
terminal growth above −1 and growth rates bounded below by −1, the
per-share value is strictly increasing in the growth rate (first
conjunct, at any fixed discount rate `w > tg`) and strictly decreasing
in the discount rate (second conjunct, at any fixed growth `g > −1`). -/
theorem calculate_dcf_monotone (fcf tg s nd g1 g2 w w1 w2 g : ℚ)
    (hf : 0 < fcf) (hs : 0 < s) (htg : -1 < tg)
    (hg1 : -1 ≤ g1) (hg12 : g1 < g2) (hw : tg < w)
    (hw1 : tg < w1) (hw12 : w1 < w2) (hg : -1 < g) :
    calculate_dcf fcf g1 w tg s nd < calculate_dcf fcf g2 w tg s nd ∧
    calculate_dcf fcf g w2 tg s nd < calculate_dcf fcf g w1 tg s nd := by
  constructor
  · have h1w : (0:ℚ) < 1 + w := by linarith
    have hwt : (0:ℚ) < w - tg := by linarith
    have h1tg : (0:ℚ) < 1 + tg := by linarith
    have hx0 : (0:ℚ) ≤ 1 + g1 := by linarith
    have hx : (1:ℚ) + g1 < 1 + g2 := by linarith
    have hterm : ∀ t : ℕ, t ≠ 0 →
        fcf * (1+g1)^t / (1+w)^t < fcf * (1+g2)^t / (1+w)^t := by
      intro t ht
      rw [div_lt_div_iff_of_pos_right (pow_pos h1w t)]
      exact mul_lt_mul_of_pos_left (pow_lt_pow_left₀ hx hx0 ht) hf
    have hT : (fcf * (1+g1)^5 * (1+tg) / (w - tg)) / (1+w)^5
        < (fcf * (1+g2)^5 * (1+tg) / (w - tg)) / (1+w)^5 := by
      rw [div_lt_div_iff_of_pos_right (pow_pos h1w 5), div_lt_div_iff_of_pos_right hwt]
      exact mul_lt_mul_of_pos_right
        (mul_lt_mul_of_pos_left (pow_lt_pow_left₀ hx hx0 (by norm_num)) hf) h1tg
    rw [calculate_dcf_eq fcf g1 w tg s nd (ne_of_gt hs),
        calculate_dcf_eq fcf g2 w tg s nd (ne_of_gt hs),
        div_lt_div_iff_of_pos_right hs]
    have k1 := hterm 1 (by norm_num)
    have k2 := hterm 2 (by norm_num)
    have k3 := hterm 3 (by norm_num)
    have k4 := hterm 4 (by norm_num)
    have k5 := hterm 5 (by norm_num)
    simp only [pow_one] at k1
    linarith [k1, k2, k3, k4, k5, hT]
  · have h1w1 : (0:ℚ) < 1 + w1 := by linarith
    have h1w2 : (0:ℚ) < 1 + w2 := by linarith
    have h1g : (0:ℚ) < 1 + g := by linarith
    have h1tg : (0:ℚ) < 1 + tg := by linarith
    have hw1t : (0:ℚ) < w1 - tg := by linarith
    have hpw : ∀ t : ℕ, t ≠ 0 → (1+w1)^t < (1+w2)^t := fun t ht =>
      pow_lt_pow_left₀ (by linarith) (le_of_lt h1w1) ht
    have hnum : ∀ t : ℕ, (0:ℚ) < fcf * (1+g)^t := fun t =>
      mul_pos hf (pow_pos h1g t)
    have hterm2 : ∀ t : ℕ, t ≠ 0 →
        fcf * (1+g)^t / (1+w2)^t < fcf * (1+g)^t / (1+w1)^t := fun t ht =>
      div_lt_div_of_pos_left (hnum t) (pow_pos h1w1 t) (hpw t ht)
    have hT2 : (fcf * (1+g)^5 * (1+tg) / (w2 - tg)) / (1+w2)^5
        < (fcf * (1+g)^5 * (1+tg) / (w1 - tg)) / (1+w1)^5 := by
      rw [div_div, div_div]
      apply div_lt_div_of_pos_left (mul_pos (hnum 5) h1tg)
        (mul_pos hw1t (pow_pos h1w1 5))
      exact mul_lt_mul (by linarith) (le_of_lt (hpw 5 (by norm_num)))
        (pow_pos h1w1 5) (by linarith)
    rw [calculate_dcf_eq fcf g w2 tg s nd (ne_of_gt hs),
        calculate_dcf_eq fcf g w1 tg s nd (ne_of_gt hs),
        div_lt_div_iff_of_pos_right hs]
    have k1 := hterm2 1 (by norm_num)
    have k2 := hterm2 2 (by norm_num)
    have k3 := hterm2 3 (by norm_num)
    have k4 := hterm2 4 (by norm_num)
    have k5 := hterm2 5 (by norm_num)
    simp only [pow_one] at k1
    linarith [k1, k2, k3, k4, k5, hT2]

/-- Witness for the amended C4 at concrete inputs: raising growth from 0
to 0.10 raises the value; raising the discount rate from 0.10 to 0.20
lowers it. -/
theorem calculate_dcf_monotone_app :
    calculate_dcf 100 0 (1/10) (1/40) 1000 0 <
        calculate_dcf 100 (1/10) (1/10) (1/40) 1000 0 ∧
    calculate_dcf 100 (1/10) (1/5) (1/40) 1000 0 <
        calculate_dcf 100 (1/10) (1/10) (1/40) 1000 0 :=
  calculate_dcf_monotone 100 (1/40) 1000 0 0 (1/10) (1/10) (1/10) (1/5) (1/10)
    (by norm_num) (by norm_num) (by norm_num) (by norm_num) (by norm_num)
    (by norm_num) (by norm_num) (by norm_num) (by norm_num)

/-- The risk/reward block on the `downside <= 0` branch. -/
lemma riskReward_sentinel_eq (bull_p bear_p price : ℚ)
    (h : price - bear_p ≤ 0) :
    riskReward bull_p bear_p price =
      { ratioValue := 100, noDownside := true, rating := classify 100 } := by
  simp only [riskReward]
  rw [if_pos h]

/-- The risk/reward block on the `downside > 0` branch. -/
lemma riskReward_pos_eq (bull_p bear_p price : ℚ)
    (h : 0 < price - bear_p) :
    riskReward bull_p bear_p price =
      { ratioValue := (bull_p - price) / (price - bear_p), noDownside := false,
        rating := classify ((bull_p - price) / (price - bear_p)) } := by
  simp only [riskReward]
  rw [if_neg (not_le.mpr h)]

lemma classify_strong (r : ℚ) (h : 3 < r) : classify r = Rating.strong := by
  rw [classify, if_pos h]

lemma classify_moderate (r : ℚ) (h1 : 3/2 < r) (h2 : r ≤ 3) :
    classify r = Rating.moderate := by
  rw [classify, if_neg (not_lt.mpr h2), if_pos h1]

lemma classify_unattractive (r : ℚ) (h : r ≤ 3/2) :
    classify r = Rating.unattractive := by
  rw [classify, if_neg (not_lt.mpr (le_trans h (by norm_num))),
      if_neg (not_lt.mpr h)]

/-- Claim C6: whenever `downside = current_price − bear_value ≤ 0`, the
risk/reward block takes its explicit sentinel branch — the one whose
displayed text is "Infinite (No modeled downside)" — and the ratio is not
produced by dividing by the non-positive downside. -/
theorem riskReward_noDownside_branch (bull_p bear_p price : ℚ)
    (h : price - bear_p ≤ 0) :
    (riskReward bull_p bear_p price).noDownside = true := by
  rw [riskReward_sentinel_eq bull_p bear_p price h]

/-- Witness for C6 at the spec scenario `current_price=100,
bear_value=110`: the sentinel branch is taken. -/
theorem riskReward_noDownside_branch_app :
    ((100:ℚ) - 110 ≤ 0) ∧ (riskReward 120 110 100).noDownside = true :=
  ⟨by norm_num, riskReward_noDownside_branch 120 110 100 (by norm_num)⟩

/-- Claim C7 counterexample: at `bull_value=400, bear_value=150,
current_price=100` the code computes `downside = 100 − 150 = −50 ≤ 0`,
so the sentinel branch fires: the ratio variable is the literal 100 and
is not the claimed division result 6.0. -/
theorem riskReward_scenario_not_six :
    (riskReward 400 150 100).noDownside = true ∧
    (riskReward 400 150 100).ratioValue = 100 ∧
    ¬ (riskReward 400 150 100).ratioValue = 6 := by
  rw [riskReward_sentinel_eq 400 150 100 (by norm_num)]
  refine ⟨rfl, rfl, by norm_num⟩

/-- Claim C7 (amended): when `downside = current_price − bear_value > 0`
the ratio is exactly `(bull_value − current_price)/(current_price −
bear_value)` and the label follows the exact thresholds: ratio > 3 strong
opportunity, 1.5 < ratio ≤ 3 moderate opportunity, ratio ≤ 1.5
unattractive.  The scenario instance holds with `bear_value = 50`
(so that downside = 50): upside 300, downside 50, ratio 6.0, strong. -/
theorem riskReward_classification (bull_p bear_p price : ℚ)
    (h : 0 < price - bear_p) :
    (riskReward bull_p bear_p price).ratioValue
        = (bull_p - price) / (price - bear_p) ∧
    (3 < (riskReward bull_p bear_p price).ratioValue →
      (riskReward bull_p bear_p price).rating = Rating.strong) ∧
    (3/2 < (riskReward bull_p bear_p price).ratioValue ∧
        (riskReward bull_p bear_p price).ratioValue ≤ 3 →
      (riskReward bull_p bear_p price).rating = Rating.moderate) ∧
    ((riskReward bull_p bear_p price).ratioValue ≤ 3/2 →
      (riskReward bull_p bear_p price).rating = Rating.unattractive) := by
  rw [riskReward_pos_eq bull_p bear_p price h]
  refine ⟨rfl, ?_, ?_, ?_⟩
  · exact fun hr => classify_strong _ hr
  · exact fun hr => classify_moderate _ hr.1 hr.2
  · exact fun hr => classify_unattractive _ hr

/-- Witness for the amended C7: `bull=400, bear=50, price=100` gives
ratio 6.0 and the strong-opportunity label. -/
theorem riskReward_classification_app :
    ((0:ℚ) < 100 - 50) ∧ (riskReward 400 50 100).ratioValue = 6 ∧
      (riskReward 400 50 100).rating = Rating.strong := by
  have h : (0:ℚ) < 100 - 50 := by norm_num
  have hc := riskReward_classification 400 50 100 h
  have hv : (riskReward 400 50 100).ratioValue = 6 := by
    rw [hc.1]; norm_num
  exact ⟨h, hv, hc.2.1 (by rw [hv]; norm_num)⟩

/-- Claim C10 (implicit): on the `downside ≤ 0` branch the code sets the
numeric ratio to the literal 100 (not a distinct non-numeric sentinel),
and since 100 > 3 the subsequent threshold classification always selects
the strong-opportunity label on that branch. -/
theorem riskReward_sentinel_hundred_strong (bull_p bear_p price : ℚ)
    (h : price - bear_p ≤ 0) :
    (riskReward bull_p bear_p price).ratioValue = 100 ∧
    (riskReward bull_p bear_p price).rating = Rating.strong := by
  rw [riskReward_sentinel_eq bull_p bear_p price h]
  exact ⟨rfl, classify_strong 100 (by norm_num)⟩

/-- Witness for C10: even with the bull value far below the price
(bull=0, bear=110, price=100), the branch yields ratio 100 and the
strong-opportunity label. -/
theorem riskReward_sentinel_hundred_strong_app :
    ((100:ℚ) - 110 ≤ 0) ∧ ((riskReward 0 110 100).ratioValue = 100 ∧
      (riskReward 0 110 100).rating = Rating.strong) :=
  ⟨by norm_num, riskReward_sentinel_hundred_strong 0 110 100 (by norm_num)⟩

end QuTap
